import Mathlib

/-!
Verification of the retrieval-augmented report pipeline of the
veille-scientifique-automatisee repository.

Shallow embedding of:
* `src/tools/arxiv_tool.py` and `src/mcp_servers/arxiv_server.py` /
  `src/tools/arxiv_mcp_client.py` — the two article-search call paths;
* `src/agents.py` — the `VeilleScientifiqueCrew` orchestrator;
* `src/backend/api.py` — the `/api/search` endpoint;
* `src/tools/database.py` — `DatabaseManager` over PostgreSQL/pgvector;
* `src/tools/rag_tool.py` — `RAGTool` context building.

External collaborators (the arXiv backend, the embedding service, the LLM
backend, the database connection and the PDF engine) are modelled as
oracles/parameters; Python exceptions are modelled with `Except`, and a
Python `try/except` is a `match` on that `Except`.
-/

set_option maxRecDepth 100000

deriving instance DecidableEq for Except

namespace Veille

/-- A value stored in one of the loosely-typed Python dicts that cross
layer boundaries: either a string or a list of strings. -/
inductive Value where
  | str : String → Value
  | strList : List String → Value
deriving DecidableEq, Repr

/-- A calendar date, as carried by `result.published` of the arxiv library. -/
structure Date where
  year : Nat
  month : Nat
  day : Nat
deriving DecidableEq, Repr

/-- Zero-pad a numeral to width 2, as `strftime` does for `%m`/`%d`. -/
def pad2 (n : Nat) : String :=
  if n < 10 then "0" ++ toString n else toString n

/-- Zero-pad a numeral to width 4, as `strftime` does for `%Y`. -/
def pad4 (n : Nat) : String :=
  if n < 10 then "000" ++ toString n
  else if n < 100 then "00" ++ toString n
  else if n < 1000 then "0" ++ toString n
  else toString n

/-- `published.strftime('%Y-%m-%d')` from both search paths. -/
def strftimeYmd (d : Date) : String :=
  pad4 d.year ++ "-" ++ pad2 d.month ++ "-" ++ pad2 d.day

/-- One raw result object of the arxiv library (`arxiv.Search(...).results()`). -/
structure RawResult where
  title : String
  authors : List String
  summary : String
  published : Date
  pdf_url : String
  entry_id : String
  categories : List String
  primary_category : String
deriving DecidableEq, Repr

/-- The arXiv backend: the behaviour of `arxiv.Search`/`.results()`, given a
query string and a `max_results` value; it may raise a transport error. -/
structure ArxivBackend where
  run : String → Nat → Except String (List RawResult)

/-- The article dict built by `search_arxiv` in `src/tools/arxiv_tool.py`
(lines 30-38): seven fields, in source order. -/
def directArticleFields (r : RawResult) : List (String × Value) :=
  [("title", Value.str r.title),
   ("authors", Value.strList r.authors),
   ("summary", Value.str r.summary),
   ("published", Value.str (strftimeYmd r.published)),
   ("pdf_url", Value.str r.pdf_url),
   ("entry_id", Value.str r.entry_id),
   ("categories", Value.strList r.categories)]

/-- The article dict built by `search_arxiv_tool` in
`src/mcp_servers/arxiv_server.py` (lines 105-114): the same seven fields
plus `primary_category`. -/
def mcpArticleFields (r : RawResult) : List (String × Value) :=
  [("title", Value.str r.title),
   ("authors", Value.strList r.authors),
   ("summary", Value.str r.summary),
   ("published", Value.str (strftimeYmd r.published)),
   ("pdf_url", Value.str r.pdf_url),
   ("entry_id", Value.str r.entry_id),
   ("categories", Value.strList r.categories),
   ("primary_category", Value.str r.primary_category)]

/-- The shape of an article dict: its list of field names. -/
def shape (fields : List (String × Value)) : List String :=
  fields.map Prod.fst

/-- `search_arxiv` from `src/tools/arxiv_tool.py`: passes `max_results`
through to the backend unchanged; any exception is caught and turned into
the empty list. -/
def search_arxiv (b : ArxivBackend) (keyword : String) (max_results : Nat) :
    List (List (String × Value)) :=
  match b.run keyword max_results with
  | .error _ => []
  | .ok rs => rs.map directArticleFields

/-- The JSON payload produced by `search_arxiv_tool` in
`src/mcp_servers/arxiv_server.py`. -/
structure MCPResult where
  success : Bool
  articles : List (List (String × Value))
  error : Option String
deriving DecidableEq

/-- `search_arxiv_tool` from `src/mcp_servers/arxiv_server.py`: rejects a
missing/empty keyword, clamps `max_results` with `min(max_results, 50)`,
and catches backend exceptions into an error payload. -/
def search_arxiv_tool (b : ArxivBackend) (keyword : String) (max_results : Nat) :
    MCPResult :=
  if keyword = "" then
    { success := false, articles := [],
      error := some "Le paramètre \x27keyword\x27 est requis" }
  else
    match b.run keyword (min max_results 50) with
    | .error e =>
        { success := false, articles := [],
          error := some ("Erreur lors de la recherche arXiv: " ++ e) }
    | .ok rs =>
        { success := true, articles := rs.map mcpArticleFields, error := none }

/-- `search_arxiv_sync` from `src/tools/arxiv_mcp_client.py` composed with
the server: the client parses the JSON payload and returns the article list
on success, the empty list otherwise. -/
def search_arxiv_sync (b : ArxivBackend) (keyword : String) (max_results : Nat) :
    List (List (String × Value)) :=
  let r := search_arxiv_tool b keyword max_results
  if r.success then r.articles else []

/-- An article dict as used inside `src/agents.py` (the shape produced by
both search paths' seven common fields). -/
structure Article where
  entry_id : String
  title : String
  authors : List String
  summary : String
  published : String
  pdf_url : String
  categories : List String
deriving DecidableEq, Repr

/-- One entry of `self.article_summaries`, built in
`execute_summarization` (`src/agents.py` lines 286-292). -/
structure ArticleSummary where
  title : String
  authors : List String
  published : String
  pdf_url : String
  summary : String
deriving DecidableEq, Repr

/-- A transport/backend exception raised by a `crew.kickoff()` LLM call. -/
inductive TErr where
  | transport : String → TErr
deriving DecidableEq, Repr

/-- The message carried by a transport exception (its Python `str`). -/
def tErrMsg : TErr → String
  | .transport m => m

/-- The mutable instance state of `VeilleScientifiqueCrew`
(`src/agents.py` lines 36-50). -/
structure CrewState where
  keyword : String
  max_articles : Nat
  articles : List Article
  article_summaries : List ArticleSummary
deriving DecidableEq, Repr

/-- The external collaborators of the orchestrator: `search_arxiv`
(already exception-free, returning `[]` on failure),
`rag_tool.store_multiple_articles` (returns a stored count),
`crew.kickoff()` on a task description (may raise a transport error),
`rag_tool.get_context_for_summary` (total, see `src/tools/rag_tool.py`),
and `generate_pdf_report` (total, returns `""` on a render error). -/
structure Env where
  search : String → Nat → List Article
  store : List Article → String → Nat
  llm : String → Except TErr String
  ragContext : String → String → String
  pdf : String → String → List ArticleSummary → String

/-- The five pipeline stages of `run_complete_workflow`. -/
inductive Stage where
  | collect
  | quick
  | summarize
  | synth
  | render
deriving DecidableEq, Repr

/-- The result dict of `run_complete_workflow`, shaped like the
`SearchResponse` model of `src/backend/api.py` (absent keys are `none`). -/
structure RunResult where
  success : Bool
  keyword : Option String
  articles_count : Option Nat
  quick_summary : Option String
  global_synthesis : Option String
  article_summaries : Option (List ArticleSummary)
  pdf_path : Option String
  error : Option String
deriving DecidableEq, Repr

/-- `execute_collection` (`src/agents.py` lines 211-234): sets
`self.articles` from the search, returns `[]` when nothing was found,
otherwise stores the articles (a database side effect whose count is only
printed) and returns them. -/
def execute_collection (env : Env) (s : CrewState) : CrewState × List Article :=
  let articles := env.search s.keyword s.max_articles
  let s1 := { s with articles := articles }
  if articles.isEmpty then (s1, [])
  else
    let _stored := env.store articles s.keyword
    (s1, articles)

/-- The `titles_and_summaries` block of `execute_quick_summary`
(`src/agents.py` lines 310-313): the first 3 articles, each contributing
its title and the first 200 characters of its abstract. -/
def quickTitlesAndSummaries (articles : List Article) : String :=
  String.intercalate "\n\n"
    ((articles.take 3).map
      (fun a => "- " ++ a.title ++ ": " ++ a.summary.take 200 ++ "..."))

/-- The task description sent to the LLM by `execute_quick_summary`
(`src/agents.py` lines 316-325). -/
def quickPrompt (keyword : String) (articles : List Article) : String :=
  "Créer un résumé ultra-concis de 2-3 phrases maximum sur les principales découvertes " ++
  "concernant \"" ++ keyword ++ "\" basé sur ces articles :\n\n" ++
  quickTitlesAndSummaries articles ++ "\n\n" ++
  "Le résumé doit être immédiatement compréhensible et informatif."

/-- `execute_quick_summary` (`src/agents.py` lines 297-338): a fixed
message when no articles were collected, otherwise one LLM call whose
exception (if any) propagates to the caller. -/
def execute_quick_summary (env : Env) (s : CrewState) : Except TErr String :=
  if s.articles.isEmpty then .ok "Aucun article trouvé pour ce mot-clé."
  else env.llm (quickPrompt s.keyword s.articles)

/-- The per-article task description of `execute_summarization`
(`src/agents.py` lines 258-271). -/
def summaryPrompt (context : String) (a : Article) : String :=
  "Résumer l\x27article suivant en 5-8 phrases basées UNIQUEMENT sur le contenu fourni :\n\n" ++
  "Titre : " ++ a.title ++ "\n" ++
  "Résumé original : " ++ a.summary ++ "\n\n" ++
  "Contexte additionnel (si pertinent) :\n" ++ context ++ "\n\n" ++
  "Règles strictes :\n" ++
  "- Ne jamais inventer ou ajouter d\x27informations\n" ++
  "- Rester fidèle au contenu de l\x27article\n" ++
  "- Être clair et concis"

/-- The dict appended to `self.article_summaries` for one article
(`src/agents.py` lines 286-292). -/
def mkArticleSummary (a : Article) (text : String) : ArticleSummary :=
  { title := a.title, authors := a.authors, published := a.published,
    pdf_url := a.pdf_url, summary := text }

/-- The loop body of `execute_summarization` (`src/agents.py` lines
251-292): one RAG-context lookup and one LLM call per article, appending
to the accumulated `self.article_summaries`; the LLM call sits in no
`try/except`, so its exception aborts the loop. -/
def summarizeLoop (env : Env) (keyword : String) :
    List Article → List ArticleSummary → Except TErr (List ArticleSummary)
  | [], acc => .ok acc
  | a :: rest, acc =>
    let context := env.ragContext a.title keyword
    match env.llm (summaryPrompt context a) with
    | .error e => .error e
    | .ok text => summarizeLoop env keyword rest (acc ++ [mkArticleSummary a text])

/-- `execute_summarization` (`src/agents.py` lines 236-295): returns `[]`
when there is nothing to summarize, otherwise runs the loop and returns
the updated state together with `self.article_summaries`. -/
def execute_summarization (env : Env) (s : CrewState) :
    Except TErr (CrewState × List ArticleSummary) :=
  if s.articles.isEmpty then .ok (s, [])
  else
    match summarizeLoop env s.keyword s.articles s.article_summaries with
    | .error e => .error e
    | .ok summaries => .ok ({ s with article_summaries := summaries }, summaries)

/-- The `all_summaries` block of `execute_global_synthesis`
(`src/agents.py` lines 353-356). -/
def allSummariesText (summaries : List ArticleSummary) : String :=
  String.intercalate "\n\n"
    (summaries.map (fun x => "Article : " ++ x.title ++ "\nRésumé : " ++ x.summary))

/-- The task description sent to the LLM by `execute_global_synthesis`
(`src/agents.py` lines 359-372). -/
def synthesisPrompt (keyword : String) (summaries : List ArticleSummary) : String :=
  "Créer une synthèse globale complète sur \"" ++ keyword ++ "\" en analysant " ++
  "les résumés suivants :\n\n" ++ allSummariesText summaries ++ "\n\n" ++
  "Identifier :\n" ++
  "1. Les tendances principales et thèmes récurrents\n" ++
  "2. Les découvertes ou innovations importantes\n" ++
  "3. Les points de convergence entre les articles\n" ++
  "4. Les perspectives futures et implications\n\n" ++
  "Synthèse de 10-15 phrases, structurée et cohérente."

/-- `execute_global_synthesis` (`src/agents.py` lines 340-385): a fixed
message when no summaries exist, otherwise one LLM call whose exception
propagates to the caller. -/
def execute_global_synthesis (env : Env) (s : CrewState) : Except TErr String :=
  if s.article_summaries.isEmpty then
    .ok "Aucun résumé disponible pour créer une synthèse."
  else env.llm (synthesisPrompt s.keyword s.article_summaries)

/-- The early-return dict of `run_complete_workflow` when the collection
stage yields zero articles (`src/agents.py` lines 430-436). -/
def noArticlesResult : RunResult :=
  { success := false, keyword := none, articles_count := none,
    quick_summary := some "Aucun article trouvé pour ce mot-clé.",
    global_synthesis := none, article_summaries := none,
    pdf_path := none, error := some "Aucun article trouvé" }

/-- `run_complete_workflow` (`src/agents.py` lines 414-462), with the list
of stages that actually ran attached to the successful outcome; an
uncaught stage exception propagates out as the `Except.error` case. -/
def run_complete_workflow (env : Env) (s : CrewState) :
    Except TErr (RunResult × List Stage) :=
  let c := execute_collection env s
  if (c.2).isEmpty then .ok (noArticlesResult, [Stage.collect])
  else
    match execute_quick_summary env c.1 with
    | .error e => .error e
    | .ok quick =>
      match execute_summarization env c.1 with
      | .error e => .error e
      | .ok (s2, summaries) =>
        match execute_global_synthesis env s2 with
        | .error e => .error e
        | .ok synth =>
          let pdf := env.pdf s2.keyword synth s2.article_summaries
          .ok ({ success := true, keyword := some s2.keyword,
                 articles_count := some c.2.length,
                 quick_summary := some quick,
                 global_synthesis := some synth,
                 article_summaries := some summaries,
                 pdf_path := some pdf, error := none },
               [Stage.collect, Stage.quick, Stage.summarize, Stage.synth, Stage.render])

/-- A Python exception live inside the endpoint's `try` block: either a
`fastapi.HTTPException` (which subclasses `Exception`) or any other
exception bubbling up from the workflow. -/
inductive PyExc where
  | http : Nat → String → PyExc
  | exc : String → PyExc
deriving DecidableEq, Repr

/-- Python `str(e)`: starlette's `HTTPException.__str__` yields
`"{status_code}: {detail}"`; for other exceptions, their message. -/
def pyStr : PyExc → String
  | .http code detail => toString code ++ ": " ++ detail
  | .exc msg => msg

/-- The HTTP outcome of one call to the endpoint: a 200 response carrying
a `SearchResponse` body, or an error status with a detail string. -/
inductive ApiOutcome where
  | response : RunResult → ApiOutcome
  | httpError : Nat → String → ApiOutcome
deriving DecidableEq, Repr

/-- Python `str.strip()`: drop leading and trailing whitespace. -/
def pyStrip (s : String) : String :=
  ⟨((s.data.dropWhile Char.isWhitespace).reverse.dropWhile Char.isWhitespace).reverse⟩

/-- The `try` block of `search_articles` (`src/backend/api.py` lines
88-111): the two validations raise `HTTPException(400, ...)`, then the
crew is created and the workflow run, whose exceptions also escape. -/
def search_articles_body (env : Env) (keyword : String) (max_articles : Int) :
    Except PyExc RunResult :=
  if keyword = "" ∨ pyStrip keyword = "" then
    .error (.http 400 "Le mot-clé ne peut pas être vide")
  else if max_articles < 1 ∨ max_articles > 50 then
    .error (.http 400 "Le nombre d\x27articles doit être entre 1 et 50")
  else
    match run_complete_workflow env
        { keyword := keyword, max_articles := max_articles.toNat,
          articles := [], article_summaries := [] } with
    | .error e => .error (.exc (tErrMsg e))
    | .ok (r, _) => .ok r

/-- `search_articles` (`src/backend/api.py` lines 77-117): the whole body
sits in one `try`, and the final `except Exception` catches every raised
exception — the `HTTPException(400)`s included — re-raising it as
`HTTPException(500, "Erreur lors du traitement : " + str(e))`. -/
def search_articles (env : Env) (keyword : String) (max_articles : Int) :
    ApiOutcome :=
  match search_articles_body env keyword max_articles with
  | .ok r => .response r
  | .error e => .httpError 500 ("Erreur lors du traitement : " ++ pyStr e)

/-- One row of the `articles` table (`src/tools/database.py` lines 39-53).
`authors` and `categories` are TEXT columns holding `json.dumps` of the
lists; the JSON round-trip is kept structured here. The column type
`vector(1536)` fixes the embedding dimension. -/
structure StoredRow where
  entry_id : String
  title : String
  authors : List String
  summary : String
  published : String
  pdf_url : String
  categories : List String
  keyword : String
  embedding : List ℚ
deriving DecidableEq, Repr

/-- A database-level error surfaced as a psycopg2 exception. -/
inductive DbErr where
  | dimensionMismatch
  | connectionError
deriving DecidableEq, Repr

/-- The dimension of the `vector(1536)` column. -/
def embeddingDim : Nat := 1536

/-- The row written by the INSERT of `insert_article` for one article,
keyword and embedding (`src/tools/database.py` lines 85-100). -/
def rowOfArticle (a : Article) (keyword : String) (embedding : List ℚ) :
    StoredRow :=
  { entry_id := a.entry_id, title := a.title, authors := a.authors,
    summary := a.summary, published := a.published, pdf_url := a.pdf_url,
    categories := a.categories, keyword := keyword, embedding := embedding }

/-- The SQL semantics of the INSERT of `insert_article`
(`src/tools/database.py` lines 85-100): a vector whose dimension differs
from the column type raises; otherwise `ON CONFLICT (entry_id) DO
NOTHING` leaves the table unchanged when the id is already present, and
appends a row when it is not. -/
def insertArticleSQL (db : List StoredRow) (a : Article) (keyword : String)
    (embedding : List ℚ) : Except DbErr (List StoredRow) :=
  if embedding.length ≠ embeddingDim then .error .dimensionMismatch
  else if db.any (fun r => r.entry_id = a.entry_id) then .ok db
  else .ok (db ++ [rowOfArticle a keyword embedding])

/-- `DatabaseManager.insert_article` (`src/tools/database.py` lines
69-109): runs the INSERT inside `try/except`, returning `True` on commit
and `False` on any exception (connection failure included), with the
table unchanged in the failure case. -/
def insert_article (connFail : Bool) (db : List StoredRow) (a : Article)
    (keyword : String) (embedding : List ℚ) : List StoredRow × Bool :=
  if connFail then (db, false)
  else
    match insertArticleSQL db a keyword embedding with
    | .error _ => (db, false)
    | .ok db2 => (db2, true)

/-- Insert `x` into a list already ordered by `le` (helper for the ORDER
BY semantics below). -/
def insertLe {α : Type} (le : α → α → Bool) (x : α) : List α → List α
  | [] => [x]
  | y :: ys => if le x y then x :: y :: ys else y :: insertLe le x ys

/-- Sort a list by `le` (the ORDER BY of a SELECT). -/
def sortByLe {α : Type} (le : α → α → Bool) : List α → List α
  | [] => []
  | x :: xs => insertLe le x (sortByLe le xs)

/-- One row of the result set of `search_similar_articles`: the selected
columns plus `1 - (embedding <=> query)` as `similarity`. -/
structure SimilarArticle where
  entry_id : String
  title : String
  authors : List String
  summary : String
  published : String
  pdf_url : String
  categories : List String
  similarity : ℚ
deriving DecidableEq, Repr

/-- `DatabaseManager.search_similar_articles` (`src/tools/database.py`
lines 111-154): SELECT rows WHERE keyword matches, ORDER BY `embedding
<=> query` ascending, LIMIT `limit`, with `similarity = 1 - (embedding
<=> query)`; any exception (connection failure, or a query vector of the
wrong dimension failing the `::vector` cast) is caught into `[]`. The
cosine-distance operator `<=>` is the pgvector engine's and is taken as
the parameter `dist`. -/
def search_similar_articles (dist : List ℚ → List ℚ → ℚ) (connFail : Bool)
    (db : List StoredRow) (q : List ℚ) (keyword : String) (limit : Nat) :
    List SimilarArticle :=
  if connFail ∨ q.length ≠ embeddingDim then []
  else
    let rows := sortByLe
      (fun r1 r2 => decide (dist r1.embedding q ≤ dist r2.embedding q))
      (db.filter (fun r => r.keyword = keyword))
    (rows.take limit).map
      (fun r => { entry_id := r.entry_id, title := r.title,
                  authors := r.authors, summary := r.summary,
                  published := r.published, pdf_url := r.pdf_url,
                  categories := r.categories,
                  similarity := 1 - dist r.embedding q })

/-- `DatabaseManager.get_all_articles_by_keyword` (`src/tools/database.py`
lines 156-193): SELECT WHERE keyword matches ORDER BY published DESC;
any exception is caught into `[]`. -/
def get_all_articles_by_keyword (connFail : Bool) (db : List StoredRow)
    (keyword : String) : List StoredRow :=
  if connFail then []
  else
    sortByLe (fun r1 r2 => decide (compare r1.published r2.published ≠ Ordering.lt))
      (db.filter (fun r => r.keyword = keyword))

/-- `DatabaseManager.clear_articles_by_keyword` (`src/tools/database.py`
lines 195-218): DELETE WHERE keyword matches, `True` on success, `False`
(table unchanged) on any exception. -/
def clear_articles_by_keyword (connFail : Bool) (db : List StoredRow)
    (keyword : String) : List StoredRow × Bool :=
  if connFail then (db, false)
  else (db.filter (fun r => ¬ r.keyword = keyword), true)

/-- The connection parameters read from the environment by
`DatabaseManager.__init__` (`src/tools/database.py` lines 16-22). -/
structure ConnectionParams where
  host : String
  port : String
  database : String
  user : String
  password : String
deriving DecidableEq, Repr

/-- The schema statements of `_init_database` (`src/tools/database.py`
lines 29-67): `CREATE EXTENSION/TABLE/INDEX IF NOT EXISTS` leave an
existing schema as it is; a connection failure raises. -/
def initDatabaseSQL (initFail : Bool) (db : List StoredRow) :
    Except DbErr (List StoredRow) :=
  if initFail then .error .connectionError else .ok db

/-- `_init_database`: the whole body sits in `try/except` that only
prints the error, so a failed initialization leaves the state untouched
and raises nothing. -/
def init_database (initFail : Bool) (db : List StoredRow) : List StoredRow :=
  match initDatabaseSQL initFail db with
  | .error _ => db
  | .ok db2 => db2

/-- The `DatabaseManager` object: its only state is the connection
parameters (each operation opens its own connection). -/
structure DatabaseManager where
  connection_params : ConnectionParams
deriving DecidableEq, Repr

/-- `DatabaseManager.__init__` (`src/tools/database.py` lines 14-23):
stores the parameters then calls `_init_database`; construction always
yields a manager because initialization errors are caught. -/
def DatabaseManager.make (params : ConnectionParams) (initFail : Bool)
    (db : List StoredRow) : DatabaseManager × List StoredRow :=
  ({ connection_params := params }, init_database initFail db)

/-- The collaborators of `RAGTool` (`src/tools/rag_tool.py`): the
embedding backend (`OpenAIEmbeddings.embed_query`, may raise), the
pgvector distance operator, and the database state with its
failure flag. -/
structure RagEnv where
  embed : String → Except String (List ℚ)
  dist : List ℚ → List ℚ → ℚ
  connFail : Bool
  db : List StoredRow

/-- `RAGTool.retrieve_relevant_articles` (`src/tools/rag_tool.py` lines
47-74): embeds the query and searches similar rows; any exception is
caught into `[]`. -/
def retrieve_relevant_articles (env : RagEnv) (query : String)
    (keyword : String) (top_k : Nat) : List SimilarArticle :=
  match env.embed query with
  | .error _ => []
  | .ok qe => search_similar_articles env.dist env.connFail env.db qe keyword top_k

/-- `RAGTool.get_context_for_summary` (`src/tools/rag_tool.py` lines
76-103): retrieves up to 3 articles similar to the article title, joins
their `Titre:`/`Résumé:` blocks with the fixed `"\n---\n"` delimiter;
the join of an empty list is `""`, and any exception is caught into
`""`. -/
def get_context_for_summary (env : RagEnv) (article_title : String)
    (keyword : String) : String :=
  let articles := retrieve_relevant_articles env article_title keyword 3
  String.intercalate "\n---\n"
    (articles.map (fun a => "Titre: " ++ a.title ++ "\nRésumé: " ++ a.summary ++ "\n"))

/-- A concrete article for concrete evaluations. -/
def art1 : Article :=
  { entry_id := "http://arxiv.org/abs/2401.00001v1", title := "T1",
    authors := ["A1", "A2"], summary := "Sum1", published := "2024-01-02",
    pdf_url := "http://arxiv.org/pdf/2401.00001v1", categories := ["cs.AI"] }

/-- A fresh crew state for the keyword `"kw"`. -/
def st0 : CrewState :=
  { keyword := "kw", max_articles := 5, articles := [], article_summaries := [] }

/-- A crew state in which collection already found `art1`. -/
def st1 : CrewState :=
  { keyword := "kw", max_articles := 5, articles := [art1], article_summaries := [] }

/-- An environment in which every collaborator succeeds. -/
def envOk : Env :=
  { search := fun _ _ => [art1], store := fun _ _ => 1,
    llm := fun _ => .ok "x", ragContext := fun _ _ => "",
    pdf := fun _ _ _ => "reports/r.pdf" }

/-- An environment in which exactly the global-synthesis LLM call raises a
transport error and every other call succeeds. -/
def envSynthFail : Env :=
  { envOk with
    llm := fun p =>
      if p = synthesisPrompt "kw" [mkArticleSummary art1 "x"] then
        .error (.transport "err")
      else .ok "x" }

/-- An environment in which exactly the per-article summarization LLM call
for `art1` raises a transport error. -/
def envSumFail : Env :=
  { envOk with
    llm := fun p =>
      if p = summaryPrompt "" art1 then .error (.transport "err") else .ok "x" }

/-- An environment in which the article search finds nothing. -/
def envNoArticles : Env :=
  { envOk with search := fun _ _ => [] }

/-- C1: The claim says an empty/whitespace keyword or `max_articles`
outside [1,50] is rejected with a client-error (4xx) status. The
validation does run before any pipeline stage (the outcome is the same
for every environment, so no collaborator is consulted and no partial
state exists), but the `HTTPException(400)` raised inside the endpoint's
`try` block is caught by its own `except Exception` and re-raised as a
500 — the client receives a server-error status, not a 4xx. This theorem
evaluates the endpoint at the failing inputs. -/
theorem C1_invalid_request_rejected_with_500 (env : Env) :
    search_articles env "" 10 =
      .httpError 500 "Erreur lors du traitement : 400: Le mot-clé ne peut pas être vide"
  ∧ search_articles env "   " 10 =
      .httpError 500 "Erreur lors du traitement : 400: Le mot-clé ne peut pas être vide"
  ∧ search_articles env "quantum" 0 =
      .httpError 500 "Erreur lors du traitement : 400: Le nombre d\x27articles doit être entre 1 et 50"
  ∧ search_articles env "quantum" 51 =
      .httpError 500 "Erreur lors du traitement : 400: Le nombre d\x27articles doit être entre 1 et 50" :=
  ⟨rfl, rfl, rfl, rfl⟩

/-- C5: when the collection stage yields zero articles, the orchestrator
returns the fixed terminal failure immediately after COLLECT, with
`success=false`, the fixed error message, `pdf_path` null and the fixed
no-results quick summary; no later stage runs. -/
theorem C5_no_articles_terminal_failure (env : Env) (s : CrewState)
    (h : env.search s.keyword s.max_articles = []) :
    run_complete_workflow env s = .ok (noArticlesResult, [Stage.collect])
  ∧ noArticlesResult.success = false
  ∧ noArticlesResult.error = some "Aucun article trouvé"
  ∧ noArticlesResult.pdf_path = none
  ∧ noArticlesResult.quick_summary = some "Aucun article trouvé pour ce mot-clé." := by
  refine ⟨?_, rfl, rfl, rfl, rfl⟩
  simp [run_complete_workflow, execute_collection, h]

/-- Witness for C5 at a concrete environment whose search finds nothing. -/
theorem C5_no_articles_terminal_failure_witness :
    run_complete_workflow envNoArticles st0 = .ok (noArticlesResult, [Stage.collect])
  ∧ noArticlesResult.success = false
  ∧ noArticlesResult.error = some "Aucun article trouvé"
  ∧ noArticlesResult.pdf_path = none
  ∧ noArticlesResult.quick_summary = some "Aucun article trouvé pour ce mot-clé." :=
  C5_no_articles_terminal_failure envNoArticles st0 rfl

/-- C10: every public operation of `DatabaseManager` catches database
errors and returns its fallback (`false` or `[]`) with the table
unchanged — it never raises to its caller — and constructing a manager
succeeds even when schema initialization fails, the error being only
logged. The second conjunct also exercises the `DimensionMismatch` path
(an empty vector against the `vector(1536)` column). -/
theorem C10_database_operations_never_raise (dist : List ℚ → List ℚ → ℚ)
    (db : List StoredRow) (a : Article) (kw : String) (e q : List ℚ)
    (limit : Nat) (params : ConnectionParams) :
    insert_article true db a kw e = (db, false)
  ∧ insert_article false db a kw [] = (db, false)
  ∧ search_similar_articles dist true db q kw limit = []
  ∧ get_all_articles_by_keyword true db kw = []
  ∧ clear_articles_by_keyword true db kw = (db, false)
  ∧ DatabaseManager.make params true db = ({ connection_params := params }, db) :=
  ⟨rfl, rfl, rfl, rfl, rfl, rfl⟩

/-- C6: `insert_article` has conflict-ignore semantics: when the external
id is already present, the call leaves every stored row unchanged and
still returns `True`, whatever (possibly new) keyword is supplied; and
inserting a fresh id twice leaves exactly one row with that id, the
second call returning `True` without altering the table. -/
theorem C6_upsert_conflict_ignore_idempotent (db : List StoredRow)
    (a : Article) (kw kw2 : String) (e : List ℚ)
    (hdim : e.length = embeddingDim) :
    (db.any (fun r => r.entry_id = a.entry_id) = true →
       insert_article false db a kw2 e = (db, true))
  ∧ (db.any (fun r => r.entry_id = a.entry_id) = false →
       insert_article false (insert_article false db a kw e).1 a kw e =
         ((insert_article false db a kw e).1, true)
     ∧ ((insert_article false db a kw e).1.filter
          (fun r => r.entry_id = a.entry_id)).length = 1) := by
  constructor
  · intro hp
    simp [insert_article, insertArticleSQL, hdim, hp]
  · intro hf
    have hnotin : ∀ r ∈ db, ¬ (r.entry_id = a.entry_id) := by
      simpa using List.any_eq_false.mp hf
    have hins : (insert_article false db a kw e).1 = db ++ [rowOfArticle a kw e] := by
      simp [insert_article, insertArticleSQL, hdim, hf]
    constructor
    · rw [hins]
      have hany : (db ++ [rowOfArticle a kw e]).any
          (fun r => r.entry_id = a.entry_id) = true := by
        simp [rowOfArticle]
      simp [insert_article, insertArticleSQL, hdim, hany]
    · rw [hins, List.filter_append]
      have hfe : db.filter (fun r => decide (r.entry_id = a.entry_id)) = [] := by
        rw [List.filter_eq_nil_iff]
        intro r hr
        simpa using hnotin r hr
      simp [hfe, rowOfArticle]

/-- A concrete stored row holding `art1` under keyword `"kw"`. -/
def row1 : StoredRow := rowOfArticle art1 "kw" (List.replicate embeddingDim 0)

/-- Witness for C6: re-inserting `art1` under a different keyword against
a table already holding its external id is a no-op returning `True`. -/
theorem C6_upsert_conflict_ignore_idempotent_witness :
    insert_article false [row1] art1 "newkw" (List.replicate embeddingDim (0 : ℚ)) =
      ([row1], true) :=
  (C6_upsert_conflict_ignore_idempotent [row1] art1 "kw" "newkw"
    (List.replicate embeddingDim 0) (by simp)).1 (by decide)

/-- If the summarization loop finishes without an LLM exception, its
output is the accumulator followed by one entry per input article, whose
title/authors/published/pdf_url are copied verbatim from that article. -/
theorem summarizeLoop_ok_fields (env : Env) (kw : String) (arts : List Article)
    (acc out : List ArticleSummary)
    (h : summarizeLoop env kw arts acc = .ok out) :
    out.map (fun x => (x.title, x.authors, x.published, x.pdf_url)) =
      acc.map (fun x => (x.title, x.authors, x.published, x.pdf_url)) ++
      arts.map (fun a => (a.title, a.authors, a.published, a.pdf_url)) := by
  induction arts generalizing acc with
  | nil =>
      simp only [summarizeLoop] at h
      cases h
      simp
  | cons a rest ih =>
      simp only [summarizeLoop] at h
      cases hl : env.llm (summaryPrompt (env.ragContext a.title kw) a) with
      | error e => rw [hl] at h; cases h
      | ok t =>
          rw [hl] at h
          have := ih (acc ++ [mkArticleSummary a t]) h
          rw [this]
          simp [mkArticleSummary]

/-- If `execute_summarization` succeeds starting from an empty
`self.article_summaries`, its output copies each input article's
title/authors/published/pdf_url in input order. -/
theorem execute_summarization_ok_fields (env : Env) (s s2 : CrewState)
    (out : List ArticleSummary)
    (h : execute_summarization env s = .ok (s2, out))
    (h0 : s.article_summaries = []) :
    out.map (fun x => (x.title, x.authors, x.published, x.pdf_url)) =
      s.articles.map (fun a => (a.title, a.authors, a.published, a.pdf_url)) := by
  by_cases he : s.articles.isEmpty
  · have he' : s.articles = [] := by simpa using he
    simp only [execute_summarization, he, if_true] at h
    cases h
    simp [he']
  · simp only [execute_summarization, he, if_false] at h
    cases hl : summarizeLoop env s.keyword s.articles s.article_summaries with
    | error e => rw [hl] at h; cases h
    | ok summaries =>
        rw [hl] at h
        have hout : out = summaries := by cases h; rfl
        subst hout
        have := summarizeLoop_ok_fields env s.keyword s.articles
          s.article_summaries out hl
        rw [h0] at this
        simpa using this

/-- C3 (amended): when every per-article LLM call succeeds, the
SUMMARIZE_EACH output has the same length and the same relative ordering
of titles as the input article list. (The original claim also asserted
that a failed per-article call is caught and recorded as a placeholder;
the loop has no `try/except`, so a failure aborts the stage instead —
see the counterexample.) -/
theorem C3_order_preserved_when_all_succeed (env : Env) (s s2 : CrewState)
    (out : List ArticleSummary)
    (h : execute_summarization env s = .ok (s2, out))
    (h0 : s.article_summaries = []) :
    out.length = s.articles.length
  ∧ out.map (fun x => x.title) = s.articles.map (fun a => a.title) := by
  have hf := execute_summarization_ok_fields env s s2 out h h0
  constructor
  · have := congrArg List.length hf
    simpa using this
  · have := congrArg (List.map Prod.fst) hf
    simpa [List.map_map, Function.comp] using this

/-- Witness for the amended C3 at a concrete all-success environment. -/
theorem C3_order_preserved_when_all_succeed_witness :
    ([mkArticleSummary art1 "x"] : List ArticleSummary).length = st1.articles.length
  ∧ [mkArticleSummary art1 "x"].map (fun x => x.title) =
      st1.articles.map (fun a => a.title) :=
  C3_order_preserved_when_all_succeed envOk st1
    { st1 with article_summaries := [mkArticleSummary art1 "x"] }
    [mkArticleSummary art1 "x"] (by decide) rfl

/-- Counterexample for C3 as stated: in `envSumFail` the single
per-article LLM call raises a transport error; the loop has no
`try/except`, so the stage raises instead of producing a list of the
input's length with a placeholder entry. -/
theorem C3_counterexample :
    ¬ ∃ (s2 : CrewState) (out : List ArticleSummary),
        execute_summarization envSumFail st1 = .ok (s2, out)
      ∧ out.length = st1.articles.length := by
  intro hcl
  obtain ⟨s2, out, h1, -⟩ := hcl
  have hev : execute_summarization envSumFail st1 = .error (TErr.transport "err") := by
    decide
  rw [hev] at h1
  cases h1

/-- C8: every `ArticleSummary` produced by the summarization stage copies
its authors, publication date and PDF link verbatim from the originating
article. -/
theorem C8_summary_fields_preserved (env : Env) (s s2 : CrewState)
    (out : List ArticleSummary)
    (h : execute_summarization env s = .ok (s2, out))
    (h0 : s.article_summaries = []) :
    out.map (fun x => (x.authors, x.published, x.pdf_url)) =
      s.articles.map (fun a => (a.authors, a.published, a.pdf_url)) := by
  have hf := execute_summarization_ok_fields env s s2 out h h0
  have := congrArg (List.map Prod.snd) hf
  simpa [List.map_map, Function.comp] using this

/-- Witness for C8 at a concrete all-success environment. -/
theorem C8_summary_fields_preserved_witness :
    [mkArticleSummary art1 "x"].map (fun x => (x.authors, x.published, x.pdf_url)) =
      st1.articles.map (fun a => (a.authors, a.published, a.pdf_url)) :=
  C8_summary_fields_preserved envOk st1
    { st1 with article_summaries := [mkArticleSummary art1 "x"] }
    [mkArticleSummary art1 "x"] (by decide) rfl

/-- C2 (amended): a transport error raised by the global-synthesis LLM
call is NOT confined to its stage — `execute_global_synthesis` has no
`try/except`, so the exception propagates out of
`run_complete_workflow`, which then returns no result dict at all: the
already-computed quick summary and per-article summaries are discarded
and no report is rendered. -/
theorem C2_synthesis_error_aborts_run (env : Env) (s : CrewState) (q : String)
    (s2 : CrewState) (ss : List ArticleSummary) (e : TErr)
    (hart : ((execute_collection env s).2).isEmpty = false)
    (hq : execute_quick_summary env (execute_collection env s).1 = .ok q)
    (hs : execute_summarization env (execute_collection env s).1 = .ok (s2, ss))
    (hsy : execute_global_synthesis env s2 = .error e) :
    run_complete_workflow env s = .error e := by
  simp only [run_complete_workflow, hart, hq, hs, hsy]
  simp

/-- Witness for the amended C2: in `envSynthFail`, only the synthesis
call raises, and the whole run returns that error. -/
theorem C2_synthesis_error_aborts_run_witness :
    run_complete_workflow envSynthFail st0 = .error (TErr.transport "err") :=
  C2_synthesis_error_aborts_run envSynthFail st0 "x"
    { keyword := "kw", max_articles := 5, articles := [art1],
      article_summaries := [mkArticleSummary art1 "x"] }
    [mkArticleSummary art1 "x"] (TErr.transport "err")
    (by decide) (by decide) (by decide) (by decide)

/-- Counterexample for C2 as stated: with only the synthesis call
failing, the run does not return `success=true` with the other stages'
results kept — it returns no result dict at all. -/
theorem C2_counterexample :
    ¬ ∃ (r : RunResult) (stages : List Stage),
        run_complete_workflow envSynthFail st0 = .ok (r, stages)
      ∧ r.success = true := by
  intro hcl
  obtain ⟨r, stages, h1, -⟩ := hcl
  have hev : run_complete_workflow envSynthFail st0 =
      .error (TErr.transport "err") := by decide
  rw [hev] at h1
  cases h1

/-- Two article lists agreeing on titles and abstract prefixes produce
the same quick-digest entry lines. -/
theorem quickEntries_congr (l1 l2 : List Article)
    (h : l1.map (fun a => (a.title, a.summary.take 200)) =
         l2.map (fun a => (a.title, a.summary.take 200))) :
    l1.map (fun a => "- " ++ a.title ++ ": " ++ a.summary.take 200 ++ "...") =
    l2.map (fun a => "- " ++ a.title ++ ": " ++ a.summary.take 200 ++ "...") := by
  induction l1 generalizing l2 with
  | nil => cases l2 <;> simp_all
  | cons a t ih =>
      cases l2 with
      | nil => simp at h
      | cons b u =>
          simp only [List.map_cons, List.cons.injEq, Prod.mk.injEq] at h
          obtain ⟨⟨h1, h2⟩, h3⟩ := h
          simp only [List.map_cons, List.cons.injEq]
          exact ⟨by rw [h1, h2], ih u h3⟩

/-- C7: the quick digest consults only the first 3 collected articles,
and of each only its title and the first 200 characters of its abstract;
it reads nothing else of the crew state — in particular not
`article_summaries` — so it neither depends nor blocks on the
summarization stage, whatever `max_articles` is. -/
theorem C7_quick_digest_first_three_only (env : Env) (s1 s2 : CrewState)
    (hk : s1.keyword = s2.keyword)
    (h3 : (s1.articles.take 3).map (fun a => (a.title, a.summary.take 200)) =
          (s2.articles.take 3).map (fun a => (a.title, a.summary.take 200))) :
    execute_quick_summary env s1 = execute_quick_summary env s2
  ∧ ∀ (kw : String) (arts : List Article),
      quickPrompt kw arts = quickPrompt kw (arts.take 3) := by
  constructor
  · have hlen : min 3 s1.articles.length = min 3 s2.articles.length := by
      simpa [List.length_take] using congrArg List.length h3
    have hempt : s1.articles.isEmpty = s2.articles.isEmpty := by
      have h1 : s1.articles.length = 0 ↔ s2.articles.length = 0 := by omega
      cases e1 : s1.articles.isEmpty <;> cases e2 : s2.articles.isEmpty <;>
        simp_all [List.isEmpty_iff_length_eq_zero]
    have hqts : quickTitlesAndSummaries s1.articles =
        quickTitlesAndSummaries s2.articles := by
      unfold quickTitlesAndSummaries
      rw [quickEntries_congr (s1.articles.take 3) (s2.articles.take 3) h3]
    unfold execute_quick_summary
    rw [hempt, hk]
    cases e2 : s2.articles.isEmpty with
    | true => simp
    | false =>
      simp only [Bool.false_eq_true, if_false]
      unfold quickPrompt
      rw [hqts]
  · intro kw arts
    unfold quickPrompt quickTitlesAndSummaries
    rw [List.take_take]
    simp

/-- Witness for C7: two states agreeing on the first three articles'
titles and abstract prefixes but differing in later articles,
`max_articles` and `article_summaries` get the same quick digest. -/
theorem C7_quick_digest_first_three_only_witness :
    execute_quick_summary envOk
      { keyword := "kw", max_articles := 20,
        articles := [art1, art1, art1, art1], article_summaries := [] } =
    execute_quick_summary envOk
      { keyword := "kw", max_articles := 3,
        articles := [art1, art1, art1], article_summaries := [mkArticleSummary art1 "x"] }
  ∧ ∀ (kw : String) (arts : List Article),
      quickPrompt kw arts = quickPrompt kw (arts.take 3) :=
  C7_quick_digest_first_three_only envOk
    { keyword := "kw", max_articles := 20,
      articles := [art1, art1, art1, art1], article_summaries := [] }
    { keyword := "kw", max_articles := 3,
      articles := [art1, art1, art1], article_summaries := [mkArticleSummary art1 "x"] }
    rfl (by decide)

/-- C9: the context builder retrieves at most k=3 neighbours; the query
embedding is computed from the article title alone (two environments
agreeing on the embedding of the title — and on the store — build the
same context, whatever the embedder returns on any other string, e.g.
the abstract); the result is the neighbours' `Titre:`/`Résumé:` blocks
joined by the fixed `"\n---\n"` delimiter; and it degrades to the empty
string — never an exception — when no neighbour is found, when the
embedder raises, or when the database connection fails. -/
theorem C9_context_builder_contract (env env2 : RagEnv)
    (title keyword : String) :
    (retrieve_relevant_articles env title keyword 3).length ≤ 3
  ∧ get_context_for_summary env title keyword =
      String.intercalate "\n---\n"
        ((retrieve_relevant_articles env title keyword 3).map
          (fun a => "Titre: " ++ a.title ++ "\nRésumé: " ++ a.summary ++ "\n"))
  ∧ (retrieve_relevant_articles env title keyword 3 = [] →
       get_context_for_summary env title keyword = "")
  ∧ (∀ m, env.embed title = .error m →
       get_context_for_summary env title keyword = "")
  ∧ (env.connFail = true → get_context_for_summary env title keyword = "")
  ∧ (env2.embed title = env.embed title → env2.dist = env.dist →
       env2.connFail = env.connFail → env2.db = env.db →
       get_context_for_summary env2 title keyword =
         get_context_for_summary env title keyword) := by
  refine ⟨?_, rfl, ?_, ?_, ?_, ?_⟩
  · unfold retrieve_relevant_articles
    cases env.embed title with
    | error m => simp
    | ok qe =>
        unfold search_similar_articles
        by_cases hc : env.connFail ∨ qe.length ≠ embeddingDim
        · simp [hc]
        · simp only [hc, if_false]
          calc (((sortByLe _ (env.db.filter fun r => r.keyword = keyword)).take 3).map _).length
              ≤ ((sortByLe _ (env.db.filter fun r => r.keyword = keyword)).take 3).length := by
                rw [List.length_map]
            _ ≤ 3 := List.length_take_le _ _
  · intro h
    unfold get_context_for_summary
    rw [h]
    rfl
  · intro m h
    unfold get_context_for_summary retrieve_relevant_articles
    rw [h]
    rfl
  · intro h
    unfold get_context_for_summary retrieve_relevant_articles
    cases env.embed title with
    | error m => rfl
    | ok qe =>
        unfold search_similar_articles
        rw [h]
        simp
        rfl
  · intro h1 h2 h3 h4
    unfold get_context_for_summary retrieve_relevant_articles
      search_similar_articles
    rw [h1, h2, h3, h4]

/-- An embedding backend that is down: every call raises. -/
def envEmbedFail : RagEnv :=
  { embed := fun _ => .error "embedding service unavailable",
    dist := fun _ _ => 0, connFail := false, db := [] }

/-- Witness for C9: with the embedder down, the context builder returns
the empty string instead of raising. -/
theorem C9_context_builder_contract_witness :
    get_context_for_summary envEmbedFail "T1" "kw" = "" :=
  (C9_context_builder_contract envEmbedFail envEmbedFail "T1" "kw").2.2.2.1
    "embedding service unavailable" rfl

/-- A concrete raw arXiv result for the C4 evaluations. -/
def rawSample : RawResult :=
  { title := "T", authors := ["A"], summary := "S",
    published := { year := 2024, month := 1, day := 2 }, pdf_url := "u",
    entry_id := "id", categories := ["cs"], primary_category := "cs.AI" }

/-- A backend holding 60 matching results: it returns
`min max_results 60` copies of `rawSample`. -/
def backend60 : ArxivBackend :=
  { run := fun _ n => .ok (List.replicate (min n 60) rawSample) }

/-- Counterexample for C4 as stated: the two call paths do NOT produce
articles of identical shape (the MCP path adds `primary_category`), and
the direct path does NOT clamp the requested limit to 50 (at
`max_results = 60` it returns 60 articles where the MCP path returns
50). -/
theorem C4_counterexample :
    shape (directArticleFields rawSample) ≠ shape (mcpArticleFields rawSample)
  ∧ (search_arxiv backend60 "k" 60).length = 60
  ∧ (search_arxiv_sync backend60 "k" 60).length = 50 := by
  refine ⟨by decide, ?_, ?_⟩
  · simp [search_arxiv, backend60]
  · simp [search_arxiv_sync, search_arxiv_tool, backend60]

/-- C4 (amended): only the MCP server clamps the requested limit, passing
`min max_results 50` to the backend, while the direct path passes
`max_results` through unchanged; on the seven shared fields both paths
map a backend result identically, the MCP article shape being exactly
the direct shape extended with one extra `primary_category` field. -/
theorem C4_mcp_clamps_direct_passes_through (b : ArxivBackend) (kw : String)
    (n : Nat) (rs rs2 : List RawResult) (hkw : kw ≠ "")
    (hb : b.run kw (min n 50) = .ok rs) :
    search_arxiv_sync b kw n = rs.map mcpArticleFields
  ∧ (b.run kw n = .ok rs2 → search_arxiv b kw n = rs2.map directArticleFields)
  ∧ (∀ r, mcpArticleFields r =
       directArticleFields r ++ [("primary_category", Value.str r.primary_category)])
  ∧ (∀ r, shape (mcpArticleFields r) =
       shape (directArticleFields r) ++ ["primary_category"]) := by
  refine ⟨?_, ?_, fun r => rfl, fun r => rfl⟩
  · simp [search_arxiv_sync, search_arxiv_tool, hkw, hb]
  · intro h2
    simp [search_arxiv, h2]

/-- Witness for the amended C4 at the 60-result backend and
`max_results = 60`: the MCP path returns the 50 clamped results. -/
theorem C4_mcp_clamps_direct_passes_through_witness :
    search_arxiv_sync backend60 "k" 60 =
      (List.replicate 50 rawSample).map mcpArticleFields :=
  (C4_mcp_clamps_direct_passes_through backend60 "k" 60
    (List.replicate 50 rawSample) (List.replicate 60 rawSample)
    (by decide) (by decide)).1

end Veille
